import Mathlib

/-!
Shallow embedding of the feature-encoding and artifact-loading logic of
`src/app.py` (a Streamlit used-car price predictor).

The Python function `codificar_datos_para_modelo` builds a Python `dict`
`datos` initialized with every column of `X_train_columns` mapped to `0`,
overwrites the numeric and target-encoded entries, conditionally activates
one-hot columns through `activar_ohe`, and finally projects the dict through
`pd.DataFrame([datos])[X_train_columns]`, which succeeds only when every
schema column is a key of the dict.

The dict is modelled as a key list plus a total valuation `String → ℚ`.
Every read the Python code performs is guarded by key membership (the
`col_name in datos` test and the final projection over schema columns that
were all inserted at initialization), so a total valuation with junk value
`0` outside the key set is observationally faithful.
-/

/-- The character data of an appended string is the appended character data. -/
theorem string_data_append (a b : String) : (a ++ b).data = a.data ++ b.data := by
  cases a
  cases b
  rfl

/-- Taking the length of the left part of an appended list returns that part. -/
theorem take_len_append (l₁ l₂ : List Char) : (l₁ ++ l₂).take l₁.length = l₁ := by
  induction l₁ with
  | nil => rfl
  | cons a t ih => simp [ih]

/-- A string that begins with `a` differs from `c` whenever the first
`a.length` characters of `c` are not `a`. -/
theorem append_ne_of_take (a x c : String)
    (h : c.data.take a.data.length ≠ a.data) : a ++ x ≠ c := by
  intro he
  apply h
  have hd : a.data ++ x.data = c.data := by
    simpa [string_data_append] using congrArg String.data he
  rw [← hd, take_len_append]

/-- Head of an appended list with nonempty left part. -/
theorem head_append_of_ne_nil (l m : List Char) (h : l ≠ []) :
    (l ++ m).head? = l.head? := by
  cases l with
  | nil => exact absurd rfl h
  | cons a t => rfl

/-- Strings starting with distinct nonempty stems are distinct. -/
theorem append_ne_append_of_head (a b x y : String)
    (ha : a.data ≠ []) (hb : b.data ≠ []) (hne : a.data.head? ≠ b.data.head?) :
    a ++ x ≠ b ++ y := by
  intro he
  apply hne
  have hd : a.data ++ x.data = b.data ++ y.data := by
    simpa [string_data_append] using congrArg String.data he
  rw [← head_append_of_ne_nil a.data x.data ha, ← head_append_of_ne_nil b.data y.data hb, hd]

/-- Left-cancellation for string append. -/
theorem string_append_left_cancel (a x y : String) (h : a ++ x = a ++ y) : x = y := by
  have hd := congrArg String.data h
  rw [string_data_append, string_data_append] at hd
  have hxy : x.data = y.data := List.append_cancel_left hd
  cases x
  cases y
  exact congrArg String.mk hxy

/-- Model of a Python `dict` with `String` keys and numeric values:
the list of keys present, plus a total valuation (reads are only ever
performed at present keys). -/
structure Dict where
  keys : List String
  val : String → ℚ

/-- Initialization `{col: 0 for col in X_train_columns}` — every schema
column present, bound to `0`. -/
def Dict.init (cols : List String) : Dict :=
  ⟨cols, fun _ => 0⟩

/-- Assignment `datos[k] = v` (also `datos.update`): binds `k` to `v`,
adding the key if absent. -/
def Dict.insert (d : Dict) (k : String) (v : ℚ) : Dict :=
  ⟨if k ∈ d.keys then d.keys else d.keys ++ [k], fun c => if c = k then v else d.val c⟩

/-- Python `tbl.get(k, dflt)` on an association-list rendering of the dict. -/
def dictGetD (tbl : List (String × ℚ)) (k : String) (dflt : ℚ) : ℚ :=
  match tbl.find? (fun p => p.1 == k) with
  | some p => p.2
  | none => dflt

/-- The loaded artifacts the encoder reads: the feature schema
`X_train_columns`, the three target-encoding tables, and the reference year
`ANO_ACTUAL` (process-wide globals in `app.py`). -/
structure Artifacts where
  X_train_columns : List String
  manufacturer_target_encoding : List (String × ℚ)
  paint_color_target_encoding : List (String × ℚ)
  state_target_encoding : List (String × ℚ)
  ANO_ACTUAL : Int

/-- The raw user inputs passed to `codificar_datos_para_modelo`. -/
structure Inputs where
  odometer : ℚ
  year : Int
  manufacturer : String
  paint_color : String
  state : String
  cylinders : String
  fuel : String
  transmission : String
  drive : String
  size : String

/-- Helper `activar_ohe(feature_name, selected_value)` from `app.py`:
builds `f"{feature_name}_{selected_value}"` and sets that key to `1`
only when it is already a key of `datos`. -/
def activar_ohe (d : Dict) (feature selected : String) : Dict :=
  let colName := (feature ++ "_") ++ selected
  if colName ∈ d.keys then d.insert colName 1 else d

/-- The dict `datos` right after initialization and the
`datos.update({...})` call in `codificar_datos_para_modelo`:
all schema columns at `0`, then `odometer`, `age = ANO_ACTUAL - year`,
and the three target-encoded values (table lookup, default `0`). -/
def baseDatos (A : Artifacts) (I : Inputs) : Dict :=
  (((((Dict.init A.X_train_columns).insert
    "odometer" I.odometer).insert
    "age" ((A.ANO_ACTUAL - I.year : Int) : ℚ)).insert
    "manufacturer_encoded" (dictGetD A.manufacturer_target_encoding I.manufacturer 0)).insert
    "paint_color_encoded" (dictGetD A.paint_color_target_encoding I.paint_color 0)).insert
    "state_encoded" (dictGetD A.state_target_encoding I.state 0)

/-- The dict `datos` after the five one-hot activation steps of
`codificar_datos_para_modelo`: `cylinders` and `fuel` always,
`transmission` unless it equals the baseline `automatic`,
`drive` unless it equals the baseline `awd`, and `size` always. -/
def datosFinal (A : Artifacts) (I : Inputs) : Dict :=
  let d1 := activar_ohe (baseDatos A I) "cylinders" I.cylinders
  let d2 := activar_ohe d1 "fuel" I.fuel
  let d3 := if I.transmission ≠ "automatic" then activar_ohe d2 "transmission" I.transmission else d2
  let d4 := if I.drive ≠ "awd" then activar_ohe d3 "drive" I.drive else d3
  activar_ohe d4 "size" I.size

/-- Encoder `codificar_datos_para_modelo`: the final projection
`pd.DataFrame([datos])[X_train_columns]` reads every schema column from the
dict, in schema order; it raises (modelled as `none`) when a schema column is
not a key of the dict. -/
def codificar_datos_para_modelo (A : Artifacts) (I : Inputs) :
    Option (List (String × ℚ)) :=
  if ∀ c ∈ A.X_train_columns, c ∈ (datosFinal A I).keys then
    some (A.X_train_columns.map fun c => (c, (datosFinal A I).val c))
  else none

/-- The value a returned feature row assigns to column `c`
(first occurrence, as a pandas column lookup would find it). -/
def colValue (row : List (String × ℚ)) (c : String) : Option ℚ :=
  (row.find? (fun p => p.1 == c)).map Prod.snd

/-! ### Basic dictionary lemmas -/

/-- Valuation after an insert. -/
theorem Dict.val_insert (d : Dict) (k : String) (v : ℚ) (c : String) :
    (d.insert k v).val c = if c = k then v else d.val c := rfl

/-- Inserting preserves existing keys. -/
theorem Dict.mem_keys_insert (d : Dict) (k : String) (v : ℚ) (x : String)
    (h : x ∈ d.keys) : x ∈ (d.insert k v).keys := by
  by_cases hk : k ∈ d.keys <;> simp [Dict.insert, hk, h]

/-- One-hot activation never changes the key set. -/
theorem activar_keys (d : Dict) (f v : String) : (activar_ohe d f v).keys = d.keys := by
  unfold activar_ohe
  by_cases hm : ((f ++ "_") ++ v) ∈ d.keys <;> simp [hm, Dict.insert]

/-- Valuation after a one-hot activation step. -/
theorem activar_val (d : Dict) (f v c : String) :
    (activar_ohe d f v).val c =
      if ((f ++ "_") ++ v) ∈ d.keys ∧ c = (f ++ "_") ++ v then 1 else d.val c := by
  unfold activar_ohe
  by_cases hm : ((f ++ "_") ++ v) ∈ d.keys
  · by_cases hc : c = (f ++ "_") ++ v <;> simp [hm, hc, Dict.insert]
  · simp [hm]

/-! ### Column-name disequalities

The five one-hot stems begin with pairwise distinct characters, and none of
them is an initial segment of the five fixed numeric or target-encoded
column names, so a one-hot column name can never collide with a column of
another field nor with a fixed column. -/

/-- One-hot column names never equal the fixed numeric or encoded columns. -/
theorem ohe_col_ne_fixed (p c v : String)
    (hp : p ∈ (["cylinders_", "fuel_", "transmission_", "drive_", "size_"] : List String))
    (hc : c ∈ (["odometer", "age", "manufacturer_encoded", "paint_color_encoded",
      "state_encoded"] : List String)) :
    p ++ v ≠ c := by
  simp only [List.mem_cons, List.not_mem_nil, or_false] at hp hc
  rcases hp with rfl | rfl | rfl | rfl | rfl <;>
    rcases hc with rfl | rfl | rfl | rfl | rfl <;>
      exact append_ne_of_take _ _ _ (by decide)

/-- One-hot column names of distinct fields never collide. -/
theorem ohe_col_ne_ohe_col (p q v w : String)
    (hp : p ∈ (["cylinders_", "fuel_", "transmission_", "drive_", "size_"] : List String))
    (hq : q ∈ (["cylinders_", "fuel_", "transmission_", "drive_", "size_"] : List String))
    (hpq : p ≠ q) :
    p ++ v ≠ q ++ w := by
  simp only [List.mem_cons, List.not_mem_nil, or_false] at hp hq
  rcases hp with rfl | rfl | rfl | rfl | rfl <;>
    rcases hq with rfl | rfl | rfl | rfl | rfl <;>
      first
        | exact absurd rfl hpq
        | exact append_ne_append_of_head _ _ _ _ (by decide) (by decide) (by decide)

/-! ### Literal stem normalizations -/

theorem cylinders_stem (v : String) : ("cylinders" ++ "_") ++ v = "cylinders_" ++ v := rfl

theorem fuel_stem (v : String) : ("fuel" ++ "_") ++ v = "fuel_" ++ v := rfl

theorem transmission_stem (v : String) : ("transmission" ++ "_") ++ v = "transmission_" ++ v := rfl

theorem drive_stem (v : String) : ("drive" ++ "_") ++ v = "drive_" ++ v := rfl

theorem size_stem (v : String) : ("size" ++ "_") ++ v = "size_" ++ v := rfl

/-! ### The base dictionary -/

/-- Every schema column is a key of the base dictionary. -/
theorem baseDatos_keys_mem (A : Artifacts) (I : Inputs) (c : String)
    (h : c ∈ A.X_train_columns) : c ∈ (baseDatos A I).keys := by
  exact Dict.mem_keys_insert _ _ _ _ (Dict.mem_keys_insert _ _ _ _
    (Dict.mem_keys_insert _ _ _ _ (Dict.mem_keys_insert _ _ _ _
      (Dict.mem_keys_insert _ _ _ _ h))))

theorem baseDatos_val_odometer (A : Artifacts) (I : Inputs) :
    (baseDatos A I).val "odometer" = I.odometer := rfl

theorem baseDatos_val_age (A : Artifacts) (I : Inputs) :
    (baseDatos A I).val "age" = ((A.ANO_ACTUAL - I.year : Int) : ℚ) := rfl

theorem baseDatos_val_manufacturer (A : Artifacts) (I : Inputs) :
    (baseDatos A I).val "manufacturer_encoded" =
      dictGetD A.manufacturer_target_encoding I.manufacturer 0 := rfl

theorem baseDatos_val_paint (A : Artifacts) (I : Inputs) :
    (baseDatos A I).val "paint_color_encoded" =
      dictGetD A.paint_color_target_encoding I.paint_color 0 := rfl

theorem baseDatos_val_state (A : Artifacts) (I : Inputs) :
    (baseDatos A I).val "state_encoded" =
      dictGetD A.state_target_encoding I.state 0 := rfl

/-- Any column other than the five explicitly written ones still holds its
initialization value `0` in the base dictionary. -/
theorem baseDatos_val_of_ne (A : Artifacts) (I : Inputs) (c : String)
    (h1 : c ≠ "odometer") (h2 : c ≠ "age") (h3 : c ≠ "manufacturer_encoded")
    (h4 : c ≠ "paint_color_encoded") (h5 : c ≠ "state_encoded") :
    (baseDatos A I).val c = 0 := by
  simp [baseDatos, Dict.insert, Dict.init, h1, h2, h3, h4, h5]

/-! ### The final dictionary -/

/-- One-hot activation leaves the key set of the base dictionary unchanged. -/
theorem datosFinal_keys (A : Artifacts) (I : Inputs) :
    (datosFinal A I).keys = (baseDatos A I).keys := by
  by_cases ht : I.transmission = "automatic" <;>
    by_cases hd : I.drive = "awd" <;>
      simp [datosFinal, activar_keys, ht, hd]

/-- Closed form of the final dictionary valuation: the last matching one-hot
activation wins, otherwise the base value is kept. -/
theorem datosFinal_val (A : Artifacts) (I : Inputs) (c : String) :
    (datosFinal A I).val c =
      if "size_" ++ I.size ∈ (baseDatos A I).keys ∧ c = "size_" ++ I.size then 1
      else if I.drive ≠ "awd" ∧ ("drive_" ++ I.drive ∈ (baseDatos A I).keys ∧
          c = "drive_" ++ I.drive) then 1
      else if I.transmission ≠ "automatic" ∧ ("transmission_" ++ I.transmission ∈
          (baseDatos A I).keys ∧ c = "transmission_" ++ I.transmission) then 1
      else if "fuel_" ++ I.fuel ∈ (baseDatos A I).keys ∧ c = "fuel_" ++ I.fuel then 1
      else if "cylinders_" ++ I.cylinders ∈ (baseDatos A I).keys ∧
          c = "cylinders_" ++ I.cylinders then 1
      else (baseDatos A I).val c := by
  by_cases ht : I.transmission = "automatic" <;>
    by_cases hd : I.drive = "awd" <;>
      simp [datosFinal, activar_val, activar_keys, ht, hd,
        cylinders_stem, fuel_stem, transmission_stem, drive_stem, size_stem]

/-- The encoder always succeeds, returning the schema-ordered projection of
the final dictionary. -/
theorem codificar_eq_some (A : Artifacts) (I : Inputs) :
    codificar_datos_para_modelo A I =
      some (A.X_train_columns.map fun c => (c, (datosFinal A I).val c)) := by
  unfold codificar_datos_para_modelo
  rw [if_pos]
  intro c hc
  rw [datosFinal_keys]
  exact baseDatos_keys_mem A I c hc

/-- Looking up a column of a row built by mapping a valuation over the
column list recovers the valuation. -/
theorem colValue_map (cols : List String) (f : String → ℚ) (c : String)
    (hc : c ∈ cols) :
    colValue (cols.map fun x => (x, f x)) c = some (f c) := by
  induction cols with
  | nil => simp at hc
  | cons a t ih =>
    by_cases hac : a = c
    · subst hac
      simp [colValue, List.find?]
    · have hct : c ∈ t := by
        rcases List.mem_cons.mp hc with h | h
        · exact absurd h.symm hac
        · exact h
      have hb : (a == c) = false := beq_eq_false_iff_ne.mpr hac
      simpa [colValue, List.find?, hb] using ih hct

/-- The five fixed columns are never touched by one-hot activation. -/
theorem datosFinal_val_fixed (A : Artifacts) (I : Inputs) (c : String)
    (hc : c ∈ (["odometer", "age", "manufacturer_encoded", "paint_color_encoded",
      "state_encoded"] : List String)) :
    (datosFinal A I).val c = (baseDatos A I).val c := by
  rw [datosFinal_val,
    if_neg (fun h => ohe_col_ne_fixed "size_" c I.size (by simp) hc h.2.symm),
    if_neg (fun h => ohe_col_ne_fixed "drive_" c I.drive (by simp) hc h.2.2.symm),
    if_neg (fun h => ohe_col_ne_fixed "transmission_" c I.transmission (by simp) hc h.2.2.symm),
    if_neg (fun h => ohe_col_ne_fixed "fuel_" c I.fuel (by simp) hc h.2.symm),
    if_neg (fun h => ohe_col_ne_fixed "cylinders_" c I.cylinders (by simp) hc h.2.symm)]

/-- A column that is none of the five fixed columns and none of the five
possibly-activated one-hot columns keeps its initialization value `0`. -/
theorem datosFinal_val_zero (A : Artifacts) (I : Inputs) (c : String)
    (h1 : c ≠ "odometer") (h2 : c ≠ "age") (h3 : c ≠ "manufacturer_encoded")
    (h4 : c ≠ "paint_color_encoded") (h5 : c ≠ "state_encoded")
    (h6 : c ≠ "cylinders_" ++ I.cylinders) (h7 : c ≠ "fuel_" ++ I.fuel)
    (h8 : I.transmission ≠ "automatic" → c ≠ "transmission_" ++ I.transmission)
    (h9 : I.drive ≠ "awd" → c ≠ "drive_" ++ I.drive)
    (h10 : c ≠ "size_" ++ I.size) :
    (datosFinal A I).val c = 0 := by
  rw [datosFinal_val,
    if_neg (fun h => h10 h.2),
    if_neg (fun h => h9 h.1 h.2.2),
    if_neg (fun h => h8 h.1 h.2.2),
    if_neg (fun h => h7 h.2),
    if_neg (fun h => h6 h.2)]
  exact baseDatos_val_of_ne A I c h1 h2 h3 h4 h5

/-- A one-hot column whose value part differs from what its own field could
activate holds `0` in the final dictionary. -/
theorem datosFinal_val_ohe_zero (A : Artifacts) (I : Inputs) (p w : String)
    (hp : p ∈ (["cylinders_", "fuel_", "transmission_", "drive_", "size_"] : List String))
    (hcy : p = "cylinders_" → w ≠ I.cylinders)
    (hfu : p = "fuel_" → w ≠ I.fuel)
    (htr : p = "transmission_" → I.transmission ≠ "automatic" → w ≠ I.transmission)
    (hdr : p = "drive_" → I.drive ≠ "awd" → w ≠ I.drive)
    (hsz : p = "size_" → w ≠ I.size) :
    (datosFinal A I).val (p ++ w) = 0 := by
  refine datosFinal_val_zero A I (p ++ w)
    (ohe_col_ne_fixed p _ w hp (by simp))
    (ohe_col_ne_fixed p _ w hp (by simp))
    (ohe_col_ne_fixed p _ w hp (by simp))
    (ohe_col_ne_fixed p _ w hp (by simp))
    (ohe_col_ne_fixed p _ w hp (by simp))
    ?_ ?_ ?_ ?_ ?_
  · by_cases hpc : p = "cylinders_"
    · subst hpc
      exact fun h => hcy rfl (string_append_left_cancel _ _ _ h)
    · exact ohe_col_ne_ohe_col p "cylinders_" w I.cylinders hp (by simp) hpc
  · by_cases hpc : p = "fuel_"
    · subst hpc
      exact fun h => hfu rfl (string_append_left_cancel _ _ _ h)
    · exact ohe_col_ne_ohe_col p "fuel_" w I.fuel hp (by simp) hpc
  · intro hta
    by_cases hpc : p = "transmission_"
    · subst hpc
      exact fun h => htr rfl hta (string_append_left_cancel _ _ _ h)
    · exact ohe_col_ne_ohe_col p "transmission_" w I.transmission hp (by simp) hpc
  · intro hda
    by_cases hpc : p = "drive_"
    · subst hpc
      exact fun h => hdr rfl hda (string_append_left_cancel _ _ _ h)
    · exact ohe_col_ne_ohe_col p "drive_" w I.drive hp (by simp) hpc
  · by_cases hpc : p = "size_"
    · subst hpc
      exact fun h => hsz rfl (string_append_left_cancel _ _ _ h)
    · exact ohe_col_ne_ohe_col p "size_" w I.size hp (by simp) hpc

/-- The cylinders column of the selected value is set to `1` when it is a
schema column. -/
theorem datosFinal_val_cylinders (A : Artifacts) (I : Inputs)
    (hmem : "cylinders_" ++ I.cylinders ∈ A.X_train_columns) :
    (datosFinal A I).val ("cylinders_" ++ I.cylinders) = 1 := by
  rw [datosFinal_val,
    if_neg (fun h => ohe_col_ne_ohe_col "cylinders_" "size_" I.cylinders I.size
      (by simp) (by simp) (by decide) h.2),
    if_neg (fun h => ohe_col_ne_ohe_col "cylinders_" "drive_" I.cylinders I.drive
      (by simp) (by simp) (by decide) h.2.2),
    if_neg (fun h => ohe_col_ne_ohe_col "cylinders_" "transmission_" I.cylinders I.transmission
      (by simp) (by simp) (by decide) h.2.2),
    if_neg (fun h => ohe_col_ne_ohe_col "cylinders_" "fuel_" I.cylinders I.fuel
      (by simp) (by simp) (by decide) h.2),
    if_pos ⟨baseDatos_keys_mem A I _ hmem, rfl⟩]

/-- The fuel column of the selected value is set to `1` when it is a schema
column. -/
theorem datosFinal_val_fuel (A : Artifacts) (I : Inputs)
    (hmem : "fuel_" ++ I.fuel ∈ A.X_train_columns) :
    (datosFinal A I).val ("fuel_" ++ I.fuel) = 1 := by
  rw [datosFinal_val,
    if_neg (fun h => ohe_col_ne_ohe_col "fuel_" "size_" I.fuel I.size
      (by simp) (by simp) (by decide) h.2),
    if_neg (fun h => ohe_col_ne_ohe_col "fuel_" "drive_" I.fuel I.drive
      (by simp) (by simp) (by decide) h.2.2),
    if_neg (fun h => ohe_col_ne_ohe_col "fuel_" "transmission_" I.fuel I.transmission
      (by simp) (by simp) (by decide) h.2.2),
    if_pos ⟨baseDatos_keys_mem A I _ hmem, rfl⟩]

/-- The transmission column of a non-baseline selected value is set to `1`
when it is a schema column. -/
theorem datosFinal_val_transmission (A : Artifacts) (I : Inputs)
    (hbase : I.transmission ≠ "automatic")
    (hmem : "transmission_" ++ I.transmission ∈ A.X_train_columns) :
    (datosFinal A I).val ("transmission_" ++ I.transmission) = 1 := by
  rw [datosFinal_val,
    if_neg (fun h => ohe_col_ne_ohe_col "transmission_" "size_" I.transmission I.size
      (by simp) (by simp) (by decide) h.2),
    if_neg (fun h => ohe_col_ne_ohe_col "transmission_" "drive_" I.transmission I.drive
      (by simp) (by simp) (by decide) h.2.2),
    if_pos ⟨hbase, baseDatos_keys_mem A I _ hmem, rfl⟩]

/-- The drive column of a non-baseline selected value is set to `1` when it
is a schema column. -/
theorem datosFinal_val_drive (A : Artifacts) (I : Inputs)
    (hbase : I.drive ≠ "awd")
    (hmem : "drive_" ++ I.drive ∈ A.X_train_columns) :
    (datosFinal A I).val ("drive_" ++ I.drive) = 1 := by
  rw [datosFinal_val,
    if_neg (fun h => ohe_col_ne_ohe_col "drive_" "size_" I.drive I.size
      (by simp) (by simp) (by decide) h.2),
    if_pos ⟨hbase, baseDatos_keys_mem A I _ hmem, rfl⟩]

/-- The size column of the selected value is set to `1` when it is a schema
column. -/
theorem datosFinal_val_size (A : Artifacts) (I : Inputs)
    (hmem : "size_" ++ I.size ∈ A.X_train_columns) :
    (datosFinal A I).val ("size_" ++ I.size) = 1 := by
  rw [datosFinal_val, if_pos ⟨baseDatos_keys_mem A I _ hmem, rfl⟩]

/-! ### Claim theorems for the feature encoder -/

/-- Claim C1: for every input tuple, the feature vector returned by the
encoder has exactly the columns of the loaded Feature Schema
`X_train_columns`, in exactly the schema's order, regardless of which
category values were supplied. -/
theorem C1_output_columns_match_schema (A : Artifacts) (I : Inputs)
    (out : List (String × ℚ))
    (hout : codificar_datos_para_modelo A I = some out) :
    out.map Prod.fst = A.X_train_columns := by
  rw [codificar_eq_some] at hout
  injection hout with h
  subst h
  simp [Function.comp_def]

/-- Claim C2: for every manufacturer, paint color and state value that is a
key of its target-encoding table, the encoder sets the columns
`manufacturer_encoded`, `paint_color_encoded` and `state_encoded` to exactly
the numeric value stored in that table for that key. -/
theorem C2_target_encoding_lookup (A : Artifacts) (I : Inputs)
    (out : List (String × ℚ))
    (hout : codificar_datos_para_modelo A I = some out) :
    (∀ q, A.manufacturer_target_encoding.find? (fun p => p.1 == I.manufacturer) =
        some (I.manufacturer, q) →
      "manufacturer_encoded" ∈ A.X_train_columns →
      colValue out "manufacturer_encoded" = some q) ∧
    (∀ q, A.paint_color_target_encoding.find? (fun p => p.1 == I.paint_color) =
        some (I.paint_color, q) →
      "paint_color_encoded" ∈ A.X_train_columns →
      colValue out "paint_color_encoded" = some q) ∧
    (∀ q, A.state_target_encoding.find? (fun p => p.1 == I.state) =
        some (I.state, q) →
      "state_encoded" ∈ A.X_train_columns →
      colValue out "state_encoded" = some q) := by
  rw [codificar_eq_some] at hout
  injection hout with h
  subst h
  refine ⟨fun q hq hmem => ?_, fun q hq hmem => ?_, fun q hq hmem => ?_⟩
  · rw [colValue_map _ _ _ hmem, datosFinal_val_fixed A I _ (by simp),
      baseDatos_val_manufacturer]
    simp [dictGetD, hq]
  · rw [colValue_map _ _ _ hmem, datosFinal_val_fixed A I _ (by simp),
      baseDatos_val_paint]
    simp [dictGetD, hq]
  · rw [colValue_map _ _ _ hmem, datosFinal_val_fixed A I _ (by simp),
      baseDatos_val_state]
    simp [dictGetD, hq]

/-- Claim C6: for any manufacturer, paint color or state value absent from
its target-encoding table, the corresponding encoded column in the output
equals `0`, and the lookup cannot fail (it is a total `.get` with default). -/
theorem C6_unknown_category_defaults_to_zero (A : Artifacts) (I : Inputs)
    (out : List (String × ℚ))
    (hout : codificar_datos_para_modelo A I = some out) :
    (A.manufacturer_target_encoding.find? (fun p => p.1 == I.manufacturer) = none →
      "manufacturer_encoded" ∈ A.X_train_columns →
      colValue out "manufacturer_encoded" = some 0) ∧
    (A.paint_color_target_encoding.find? (fun p => p.1 == I.paint_color) = none →
      "paint_color_encoded" ∈ A.X_train_columns →
      colValue out "paint_color_encoded" = some 0) ∧
    (A.state_target_encoding.find? (fun p => p.1 == I.state) = none →
      "state_encoded" ∈ A.X_train_columns →
      colValue out "state_encoded" = some 0) := by
  rw [codificar_eq_some] at hout
  injection hout with h
  subst h
  refine ⟨fun hq hmem => ?_, fun hq hmem => ?_, fun hq hmem => ?_⟩
  · rw [colValue_map _ _ _ hmem, datosFinal_val_fixed A I _ (by simp),
      baseDatos_val_manufacturer]
    simp [dictGetD, hq]
  · rw [colValue_map _ _ _ hmem, datosFinal_val_fixed A I _ (by simp),
      baseDatos_val_paint]
    simp [dictGetD, hq]
  · rw [colValue_map _ _ _ hmem, datosFinal_val_fixed A I _ (by simp),
      baseDatos_val_state]
    simp [dictGetD, hq]

/-- Claim C7: for every integer year input, the encoder sets the `age`
column to exactly `ANO_ACTUAL - year`, including a negative result when the
year exceeds the reference year, and the computation cannot fail. -/
theorem C7_age_is_reference_year_minus_year (A : Artifacts) (I : Inputs)
    (out : List (String × ℚ))
    (hout : codificar_datos_para_modelo A I = some out)
    (hmem : "age" ∈ A.X_train_columns) :
    colValue out "age" = some ((A.ANO_ACTUAL - I.year : Int) : ℚ) := by
  rw [codificar_eq_some] at hout
  injection hout with h
  subst h
  rw [colValue_map _ _ _ hmem, datosFinal_val_fixed A I _ (by simp),
    baseDatos_val_age]

/-- Claim C9: the encoder raises no error internally for any combination of
raw input values: it always returns a feature row, whose columns are exactly
the schema columns (unknown category strings merely contribute nothing). -/
theorem C9_encoder_never_fails (A : Artifacts) (I : Inputs) :
    ∃ out, codificar_datos_para_modelo A I = some out ∧
      out.map Prod.fst = A.X_train_columns :=
  ⟨_, codificar_eq_some A I, by simp [Function.comp_def]⟩

/-- Claim C3: for every one-hot field `f` among cylinders, fuel,
transmission, drive and size, and the supplied category value `v` of `f`
other than the designated baseline, the encoder's output sets the column
named `f_v` to `1` — provided that column exists in the schema — and every
sibling one-hot column of field `f` is `0`. -/
theorem C3_one_hot_activation (A : Artifacts) (I : Inputs)
    (out : List (String × ℚ)) (f v : String)
    (hout : codificar_datos_para_modelo A I = some out)
    (hf : (f = "cylinders" ∧ v = I.cylinders) ∨ (f = "fuel" ∧ v = I.fuel) ∨
      (f = "transmission" ∧ v = I.transmission ∧ I.transmission ≠ "automatic") ∨
      (f = "drive" ∧ v = I.drive ∧ I.drive ≠ "awd") ∨
      (f = "size" ∧ v = I.size))
    (hcol : (f ++ "_") ++ v ∈ A.X_train_columns) :
    colValue out ((f ++ "_") ++ v) = some 1 ∧
    ∀ w, (f ++ "_") ++ w ∈ A.X_train_columns → w ≠ v →
      colValue out ((f ++ "_") ++ w) = some 0 := by
  rw [codificar_eq_some] at hout
  injection hout with h
  subst h
  rcases hf with ⟨rfl, rfl⟩ | ⟨rfl, rfl⟩ | ⟨rfl, rfl, hbase⟩ | ⟨rfl, rfl, hbase⟩ | ⟨rfl, rfl⟩
  · rw [cylinders_stem] at hcol
    refine ⟨?_, fun w hw hwv => ?_⟩
    · rw [cylinders_stem, colValue_map _ _ _ hcol, datosFinal_val_cylinders A I hcol]
    · rw [cylinders_stem] at hw ⊢
      rw [colValue_map _ _ _ hw,
        datosFinal_val_ohe_zero A I "cylinders_" w (by simp)
          (fun _ => hwv) (fun hp => absurd hp (by decide)) (fun hp => absurd hp (by decide))
          (fun hp => absurd hp (by decide)) (fun hp => absurd hp (by decide))]
  · rw [fuel_stem] at hcol
    refine ⟨?_, fun w hw hwv => ?_⟩
    · rw [fuel_stem, colValue_map _ _ _ hcol, datosFinal_val_fuel A I hcol]
    · rw [fuel_stem] at hw ⊢
      rw [colValue_map _ _ _ hw,
        datosFinal_val_ohe_zero A I "fuel_" w (by simp)
          (fun hp => absurd hp (by decide)) (fun _ => hwv) (fun hp => absurd hp (by decide))
          (fun hp => absurd hp (by decide)) (fun hp => absurd hp (by decide))]
  · rw [transmission_stem] at hcol
    refine ⟨?_, fun w hw hwv => ?_⟩
    · rw [transmission_stem, colValue_map _ _ _ hcol,
        datosFinal_val_transmission A I hbase hcol]
    · rw [transmission_stem] at hw ⊢
      rw [colValue_map _ _ _ hw,
        datosFinal_val_ohe_zero A I "transmission_" w (by simp)
          (fun hp => absurd hp (by decide)) (fun hp => absurd hp (by decide)) (fun _ _ => hwv)
          (fun hp => absurd hp (by decide)) (fun hp => absurd hp (by decide))]
  · rw [drive_stem] at hcol
    refine ⟨?_, fun w hw hwv => ?_⟩
    · rw [drive_stem, colValue_map _ _ _ hcol, datosFinal_val_drive A I hbase hcol]
    · rw [drive_stem] at hw ⊢
      rw [colValue_map _ _ _ hw,
        datosFinal_val_ohe_zero A I "drive_" w (by simp)
          (fun hp => absurd hp (by decide)) (fun hp => absurd hp (by decide)) (fun hp => absurd hp (by decide))
          (fun _ _ => hwv) (fun hp => absurd hp (by decide))]
  · rw [size_stem] at hcol
    refine ⟨?_, fun w hw hwv => ?_⟩
    · rw [size_stem, colValue_map _ _ _ hcol, datosFinal_val_size A I hcol]
    · rw [size_stem] at hw ⊢
      rw [colValue_map _ _ _ hw,
        datosFinal_val_ohe_zero A I "size_" w (by simp)
          (fun hp => absurd hp (by decide)) (fun hp => absurd hp (by decide)) (fun hp => absurd hp (by decide))
          (fun hp => absurd hp (by decide)) (fun _ => hwv)]

/-- Claim C4: when transmission equals the baseline value `automatic`, no
`transmission_*` one-hot column of the schema is set to `1` (all are `0`),
and when drive equals the baseline value `awd`, no `drive_*` one-hot column
is set to `1`; selecting a baseline activates no column in the output. -/
theorem C4_baseline_activates_nothing (A : Artifacts) (I : Inputs)
    (out : List (String × ℚ))
    (hout : codificar_datos_para_modelo A I = some out) :
    (I.transmission = "automatic" → ∀ w, "transmission_" ++ w ∈ A.X_train_columns →
      colValue out ("transmission_" ++ w) = some 0) ∧
    (I.drive = "awd" → ∀ w, "drive_" ++ w ∈ A.X_train_columns →
      colValue out ("drive_" ++ w) = some 0) := by
  rw [codificar_eq_some] at hout
  injection hout with h
  subst h
  refine ⟨fun hbase w hw => ?_, fun hbase w hw => ?_⟩
  · rw [colValue_map _ _ _ hw,
      datosFinal_val_ohe_zero A I "transmission_" w (by simp)
        (fun hp => absurd hp (by decide)) (fun hp => absurd hp (by decide))
        (fun _ hne => absurd hbase hne) (fun hp => absurd hp (by decide))
        (fun hp => absurd hp (by decide))]
  · rw [colValue_map _ _ _ hw,
      datosFinal_val_ohe_zero A I "drive_" w (by simp)
        (fun hp => absurd hp (by decide)) (fun hp => absurd hp (by decide)) (fun hp => absurd hp (by decide))
        (fun _ hne => absurd hbase hne) (fun hp => absurd hp (by decide))]

/-- Claim C8: every schema column other than `odometer`, `age`, the three
target-encoded columns, and the at most five one-hot columns activated for
the supplied category values equals `0` in the encoder's output. -/
theorem C8_untouched_columns_are_zero (A : Artifacts) (I : Inputs)
    (out : List (String × ℚ)) (c : String)
    (hout : codificar_datos_para_modelo A I = some out)
    (hc : c ∈ A.X_train_columns)
    (h1 : c ≠ "odometer") (h2 : c ≠ "age") (h3 : c ≠ "manufacturer_encoded")
    (h4 : c ≠ "paint_color_encoded") (h5 : c ≠ "state_encoded")
    (h6 : c ≠ "cylinders_" ++ I.cylinders) (h7 : c ≠ "fuel_" ++ I.fuel)
    (h8 : I.transmission ≠ "automatic" → c ≠ "transmission_" ++ I.transmission)
    (h9 : I.drive ≠ "awd" → c ≠ "drive_" ++ I.drive)
    (h10 : c ≠ "size_" ++ I.size) :
    colValue out c = some 0 := by
  rw [codificar_eq_some] at hout
  injection hout with h
  subst h
  rw [colValue_map _ _ _ hc,
    datosFinal_val_zero A I c h1 h2 h3 h4 h5 h6 h7 h8 h9 h10]

/-! ### Artifact loading (PARTE 1 of `app.py`)

The outer `try` loads the XGBoost model (raising `xgb.core.XGBoostError`
on failure) and then nine `.joblib` files in a fixed order.  A missing
joblib file raises `FileNotFoundError`, which is caught and reported with
`st.error` naming the missing file, followed by `st.stop()`; a corrupt
joblib file raises some other exception that no `except` clause matches,
so it propagates out of the script.  The inner `try` around
`ANO_ACTUAL = joblib.load('ANO_ACTUAL.joblib')` has a bare `except` that
replaces any failure by the constant `2024`.  The file system is abstracted
as an environment recording, for each artifact, how its load would end. -/

/-- How loading one `.joblib` artifact ends: success, a
`FileNotFoundError`, or some other exception (corrupt file). -/
inductive JoblibOutcome where
  | ok
  | fileNotFound
  | corrupt
deriving DecidableEq

/-- The deployment environment: one load outcome per artifact read by the
startup code, plus the integer stored in `ANO_ACTUAL.joblib` when readable. -/
structure LoadEnv where
  modelOk : Bool
  xcols : JoblibOutcome
  manuTE : JoblibOutcome
  paintTE : JoblibOutcome
  stateTE : JoblibOutcome
  cyl : JoblibOutcome
  fuel : JoblibOutcome
  trans : JoblibOutcome
  drive : JoblibOutcome
  size : JoblibOutcome
  ano : JoblibOutcome
  anoValue : Int
deriving DecidableEq

/-- How startup ends: a controlled `st.error` + `st.stop()` naming a
resource, an unhandled exception escaping the script, or a running app with
the reference year that was settled on. -/
inductive StartupOutcome where
  | stoppedError (resource : String)
  | unhandledException (resource : String)
  | ready (anoActual : Int)
deriving DecidableEq

/-- The nine mandatory `.joblib` loads, in the order `app.py` performs
them. -/
def mandatoryJoblibs (env : LoadEnv) : List (String × JoblibOutcome) :=
  [("X_train_columns.joblib", env.xcols),
   ("manufacturer_target_encoding.joblib", env.manuTE),
   ("paint_color_target_encoding.joblib", env.paintTE),
   ("state_target_encoding.joblib", env.stateTE),
   ("CylindersUnique.joblib", env.cyl),
   ("FuelUnique.joblib", env.fuel),
   ("TransmissionUnique.joblib", env.trans),
   ("DriveUnique.joblib", env.drive),
   ("SizeUnique.joblib", env.size)]

/-- The first mandatory joblib load that raises, if any (execution is
sequential, so the first failure aborts the rest of the `try` block). -/
def firstJoblibFailure (env : LoadEnv) : Option (String × JoblibOutcome) :=
  (mandatoryJoblibs env).find? (fun p => decide (p.2 ≠ JoblibOutcome.ok))

/-- The startup sequence of `app.py`: model load, nine mandatory joblib
loads, then the guarded optional `ANO_ACTUAL.joblib` load with fallback
`2024`.  `FileNotFoundError` and `xgb.core.XGBoostError` are caught and
turned into `st.error` + `st.stop()`; anything else escapes. -/
def loadArtifacts (env : LoadEnv) : StartupOutcome :=
  if env.modelOk then
    match firstJoblibFailure env with
    | some (name, JoblibOutcome.fileNotFound) => StartupOutcome.stoppedError name
    | some (name, _) => StartupOutcome.unhandledException name
    | none =>
        StartupOutcome.ready
          (if env.ano = JoblibOutcome.ok then env.anoValue else 2024)
  else StartupOutcome.stoppedError "../models/hiper_xgboost_50iter_42.json"

/-- Some artifact, the optional reference year included, fails to load. -/
def hasAnyArtifactFailure (env : LoadEnv) : Prop :=
  env.modelOk = false ∨ (firstJoblibFailure env).isSome = true ∨
    env.ano ≠ JoblibOutcome.ok

/-- Some mandatory artifact (the model or one of the nine required joblib
files) fails to load. -/
def mandatoryFailure (env : LoadEnv) : Prop :=
  env.modelOk = false ∨ (firstJoblibFailure env).isSome = true

/-- An environment in which every mandatory artifact loads but
`ANO_ACTUAL.joblib` is missing. -/
def envMissingAno : LoadEnv :=
  ⟨true, JoblibOutcome.ok, JoblibOutcome.ok, JoblibOutcome.ok, JoblibOutcome.ok,
   JoblibOutcome.ok, JoblibOutcome.ok, JoblibOutcome.ok, JoblibOutcome.ok,
   JoblibOutcome.ok, JoblibOutcome.fileNotFound, 2025⟩

/-- Counterexample to claim C5 as stated: `ANO_ACTUAL.joblib` is an
artifact file whose absence does not halt interaction — startup completes
and the app runs with the fallback reference year, so it is false that any
missing artifact file produces a fatal error. -/
theorem C5_counterexample :
    hasAnyArtifactFailure envMissingAno ∧
    loadArtifacts envMissingAno = StartupOutcome.ready 2024 := by
  constructor
  · exact Or.inr (Or.inr (by decide))
  · decide

/-- Claim C5 (amended): a failing mandatory artifact always prevents the app
from reaching the running state; a model failure or a missing mandatory
joblib file is reported as a fatal user-visible error naming the resource,
and a corrupt mandatory joblib file escapes as an unhandled exception.
Only `ANO_ACTUAL.joblib` is exempt from this. -/
theorem C5_mandatory_artifact_failure_halts (env : LoadEnv)
    (h : mandatoryFailure env) :
    (∀ y, loadArtifacts env ≠ StartupOutcome.ready y) ∧
    (env.modelOk = false →
      loadArtifacts env =
        StartupOutcome.stoppedError "../models/hiper_xgboost_50iter_42.json") ∧
    (∀ name, env.modelOk = true →
      firstJoblibFailure env = some (name, JoblibOutcome.fileNotFound) →
      loadArtifacts env = StartupOutcome.stoppedError name) ∧
    (∀ name, env.modelOk = true →
      firstJoblibFailure env = some (name, JoblibOutcome.corrupt) →
      loadArtifacts env = StartupOutcome.unhandledException name) := by
  refine ⟨?_, ?_, ?_, ?_⟩
  · intro y hy
    cases hm : env.modelOk with
    | false => rw [loadArtifacts, hm] at hy; cases hy
    | true =>
      rcases h with h | h
      · rw [hm] at h; cases h
      · rw [loadArtifacts, hm] at hy
        cases hf : firstJoblibFailure env with
        | none => rw [hf] at h; cases h
        | some p =>
          rw [hf] at hy
          rcases p with ⟨name, k⟩
          cases k <;> simp at hy
  · intro hm
    rw [loadArtifacts, hm]
    rfl
  · intro name hm hf
    rw [loadArtifacts, hm, hf]
    rfl
  · intro name hm hf
    rw [loadArtifacts, hm, hf]
    rfl

/-- Witness for the amended C5 at a concrete environment with a missing
`X_train_columns.joblib`. -/
theorem C5_mandatory_artifact_failure_halts_witness :
    loadArtifacts
      ⟨true, JoblibOutcome.fileNotFound, JoblibOutcome.ok, JoblibOutcome.ok,
       JoblibOutcome.ok, JoblibOutcome.ok, JoblibOutcome.ok, JoblibOutcome.ok,
       JoblibOutcome.ok, JoblibOutcome.ok, JoblibOutcome.ok, 2025⟩ =
      StartupOutcome.stoppedError "X_train_columns.joblib" :=
  (C5_mandatory_artifact_failure_halts _ (Or.inr (by decide))).2.2.1
    "X_train_columns.joblib" rfl (by decide)

/-- Claim C10: whenever every mandatory artifact loads but the
`ANO_ACTUAL.joblib` load fails for any reason — missing file or any other
exception — the loader silently falls back to the constant reference year
`2024` and startup completes without reporting an error. -/
theorem C10_ano_actual_silent_fallback (env : LoadEnv)
    (hm : env.modelOk = true) (hj : firstJoblibFailure env = none)
    (ha : env.ano ≠ JoblibOutcome.ok) :
    loadArtifacts env = StartupOutcome.ready 2024 := by
  rw [loadArtifacts, hm, hj]
  simp [ha]

/-- Witness for C10 at a concrete environment with a corrupt
`ANO_ACTUAL.joblib`. -/
theorem C10_ano_actual_silent_fallback_witness :
    loadArtifacts
      ⟨true, JoblibOutcome.ok, JoblibOutcome.ok, JoblibOutcome.ok,
       JoblibOutcome.ok, JoblibOutcome.ok, JoblibOutcome.ok, JoblibOutcome.ok,
       JoblibOutcome.ok, JoblibOutcome.ok, JoblibOutcome.corrupt, 2025⟩ =
      StartupOutcome.ready 2024 :=
  C10_ano_actual_silent_fallback _ rfl (by decide) (by decide)

/-! ### Concrete witnesses for the encoder claims -/

/-- A concrete loaded-artifact state with a fourteen-column schema and small
target-encoding tables. -/
def Aex : Artifacts :=
  ⟨["odometer", "age", "manufacturer_encoded", "paint_color_encoded", "state_encoded",
    "cylinders_6 cylinders", "cylinders_8 cylinders", "fuel_gas", "fuel_diesel",
    "transmission_manual", "drive_fwd", "drive_4wd", "size_mid-size", "size_full-size"],
   [("ford", 15000), ("toyota", 12000)], [("white", 200)], [("ca", 321)], 2024⟩

/-- A concrete input tuple with known categories and non-baseline
transmission and drive. -/
def Iex : Inputs :=
  ⟨50000, 2019, "ford", "white", "ca", "6 cylinders", "gas", "manual", "fwd", "mid-size"⟩

/-- A concrete input tuple with unknown target-encoded categories, baseline
transmission and drive, and a year beyond the reference year. -/
def Iex2 : Inputs :=
  ⟨60000, 2030, "zzz_unknown", "zzz", "zz", "8 cylinders", "diesel", "automatic",
   "awd", "full-size"⟩

/-- The encoder output row for `Aex` and `Iex`. -/
def outEx : List (String × ℚ) :=
  Aex.X_train_columns.map fun c => (c, (datosFinal Aex Iex).val c)

/-- The encoder output row for `Aex` and `Iex2`. -/
def outEx2 : List (String × ℚ) :=
  Aex.X_train_columns.map fun c => (c, (datosFinal Aex Iex2).val c)

/-- Witness for C1 at the concrete artifacts and inputs. -/
theorem C1_output_columns_match_schema_witness :
    outEx.map Prod.fst = Aex.X_train_columns :=
  C1_output_columns_match_schema Aex Iex outEx (codificar_eq_some Aex Iex)

/-- Witness for C2: the stored encoding of `ford` appears verbatim. -/
theorem C2_target_encoding_lookup_witness :
    colValue outEx "manufacturer_encoded" = some 15000 :=
  (C2_target_encoding_lookup Aex Iex outEx (codificar_eq_some Aex Iex)).1
    15000 rfl (by decide)

/-- Witness for C3: the non-baseline drive value `fwd` activates exactly the
column `drive_fwd`. -/
theorem C3_one_hot_activation_witness :
    colValue outEx (("drive" ++ "_") ++ "fwd") = some 1 :=
  (C3_one_hot_activation Aex Iex outEx "drive" "fwd" (codificar_eq_some Aex Iex)
    (Or.inr (Or.inr (Or.inr (Or.inl ⟨rfl, rfl, by decide⟩)))) (by decide)).1

/-- Witness for C4: with baseline transmission `automatic`, the schema
column `transmission_manual` stays `0`. -/
theorem C4_baseline_activates_nothing_witness :
    colValue outEx2 ("transmission_" ++ "manual") = some 0 :=
  (C4_baseline_activates_nothing Aex Iex2 outEx2 (codificar_eq_some Aex Iex2)).1
    rfl "manual" (by decide)

/-- Witness for C6: the unknown manufacturer `zzz_unknown` encodes to `0`. -/
theorem C6_unknown_category_defaults_to_zero_witness :
    colValue outEx2 "manufacturer_encoded" = some 0 :=
  (C6_unknown_category_defaults_to_zero Aex Iex2 outEx2
    (codificar_eq_some Aex Iex2)).1 rfl (by decide)

/-- Witness for C7: a year past the reference year yields a negative age. -/
theorem C7_age_is_reference_year_minus_year_witness :
    colValue outEx2 "age" = some ((Aex.ANO_ACTUAL - Iex2.year : Int) : ℚ) :=
  C7_age_is_reference_year_minus_year Aex Iex2 outEx2
    (codificar_eq_some Aex Iex2) (by decide)

/-- Witness for C8: the untouched sibling column `drive_4wd` is `0`. -/
theorem C8_untouched_columns_are_zero_witness :
    colValue outEx "drive_4wd" = some 0 :=
  C8_untouched_columns_are_zero Aex Iex outEx "drive_4wd"
    (codificar_eq_some Aex Iex) (by decide) (by decide) (by decide) (by decide)
    (by decide) (by decide) (by decide) (by decide) (by decide) (by decide)
    (by decide)
